import Mathlib

/-!
Verification of the computational contracts of the retail dashboard
(src/app/app.py).  Each panel of the dashboard is embedded as a pure
function over exact rational arithmetic; pandas/numpy aggregates over
empty subsets are modelled with `Option` (`none` stands for NaN), and
a failing dictionary lookup is modelled with `Except`.
-/

namespace RetailDashboard

/-- A customer record as generated by `load_rfm_data`:
CustomerID, Recency (days), Frequency (count), Monetary (currency). -/
structure Customer where
  customerID : Nat
  recency : ℚ
  frequency : ℚ
  monetary : ℚ
deriving Repr, DecidableEq

/-- The four slider thresholds of the RFM tab. -/
structure Thresholds where
  vip_m_threshold : ℚ
  vip_f_threshold : ℚ
  risk_recency : ℚ
  risk_value_floor : ℚ
deriving Repr, DecidableEq

/-- `segment` from src/app/app.py lines 60-65: VIP if Monetary and
Frequency clear the VIP thresholds, else At Risk if Recency and Monetary
clear the risk thresholds, else Standard. -/
def segment (t : Thresholds) (row : Customer) : String :=
  if row.monetary ≥ t.vip_m_threshold ∧ row.frequency ≥ t.vip_f_threshold then
    "VIP"
  else if row.recency ≥ t.risk_recency ∧ row.monetary ≥ t.risk_value_floor then
    "At Risk"
  else
    "Standard"

/-- `risk_users` (line 69): the rows whose derived Segment is "At Risk". -/
def risk_users (t : Thresholds) (df : List Customer) : List Customer :=
  df.filter (fun row => segment t row = "At Risk")

/-- The metric on line 77: `risk_users[Frequency].mean()`.  A pandas mean
over an empty series is NaN, modelled here as `none`. -/
def atRiskMeanFrequency (t : Thresholds) (df : List Customer) : Option ℚ :=
  let xs := (risk_users t df).map (fun row => row.frequency)
  if xs.length = 0 then none
  else some (xs.sum / (xs.length : ℚ))

/-- Line 137: `Order_Qty = Forecast * (1 + buffer_pct / 100)`, computed
elementwise over the forecast column. -/
def Order_Qty (buffer_pct : ℚ) (forecast : List ℚ) : List ℚ :=
  forecast.map (fun f => f * (1 + buffer_pct / 100))

/-- Line 140: `overstock_units = maximum(Order_Qty - Forecast, 0)`,
elementwise. -/
def overstock_units (buffer_pct : ℚ) (forecast : List ℚ) : List ℚ :=
  List.zipWith (fun o f => max (o - f) 0) (Order_Qty buffer_pct forecast) forecast

/-- Line 141: `understock_units = maximum(Forecast - Order_Qty, 0)`,
elementwise. -/
def understock_units (buffer_pct : ℚ) (forecast : List ℚ) : List ℚ :=
  List.zipWith (fun f o => max (f - o) 0) forecast (Order_Qty buffer_pct forecast)

/-- Line 143: `overstock_cost = (overstock_units * unit_cost *
(overstock_loss_rate / 100)).sum()`. -/
def overstock_cost (buffer_pct unit_cost overstock_loss_rate : ℚ)
    (forecast : List ℚ) : ℚ :=
  ((overstock_units buffer_pct forecast).map
    (fun u => u * unit_cost * (overstock_loss_rate / 100))).sum

/-- Line 144: `stockout_cost = (understock_units * lost_margin).sum()`. -/
def stockout_cost (buffer_pct lost_margin : ℚ) (forecast : List ℚ) : ℚ :=
  ((understock_units buffer_pct forecast).map (fun u => u * lost_margin)).sum

/-- Line 145: `total_cost = overstock_cost + stockout_cost`. -/
def total_cost (buffer_pct unit_cost overstock_loss_rate lost_margin : ℚ)
    (forecast : List ℚ) : ℚ :=
  overstock_cost buffer_pct unit_cost overstock_loss_rate forecast
    + stockout_cost buffer_pct lost_margin forecast

/-- An association rule record of the demo rules DB (lines 180-184). -/
structure Rule where
  target : String
  support : ℚ
  confidence : ℚ
  lift : ℚ
  driver_margin : ℚ
  target_margin : ℚ
  desc : String
deriving Repr, DecidableEq

/-- The fixed demo rules DB (lines 180-184), keyed by driver name. -/
def rules_db : List (String × Rule) :=
  [("Beer 🍺", ⟨"Chips 🥔", 8/100, 62/100, 5, 10/100, 70/100, "週末狂歡組合"⟩),
   ("Milk 🥛", ⟨"Bread 🍞", 12/100, 41/100, 18/10, 5/100, 35/100, "每日早餐剛需"⟩),
   ("Diapers 👶", ⟨"Beer 🍺", 3/100, 28/100, 35/10, 2, 10/100, "新手爸媽關聯購買"⟩)]

/-- Line 189: `rule = rules_db[selected_item]`.  A Python dict subscript
raises KeyError (a LookupError) when the key is absent, modelled with
`Except`. -/
def lookupRule (key : String) : Except String Rule :=
  match rules_db.find? (fun p => p.1 = key) with
  | some p => Except.ok p.2
  | none => Except.error "KeyError"

/-- Line 199: `total_margin = driver_margin + target_margin`. -/
def total_margin (rule : Rule) : ℚ :=
  rule.driver_margin + rule.target_margin

/-- Lines 224-236: the strategy branch emits the Loss-Leader
recommendation when the driver margin is below the target margin, and the
Bundle recommendation otherwise. -/
def strategy (rule : Rule) : String :=
  if rule.driver_margin < rule.target_margin then "Loss Leader" else "Bundle"

/-- `np.linspace(a, b, num)` over exact rationals:
a + i * (b - a) / (num - 1) for i = 0 .. num-1. -/
def linspace (a b : ℚ) (num : Nat) : List ℚ :=
  (List.range num).map
    (fun (i : Nat) => a + (b - a) * (i : ℚ) / ((num : ℚ) - 1))

/-- Line 268: `price_change_pct = np.linspace(-0.2, 0.2, 60)`. -/
def price_change_pct : List ℚ :=
  linspace (-(2/10)) (2/10) 60

/-- Line 269: `sim_prices = base_price * (1 + price_change_pct)`. -/
def sim_prices (base_price : ℚ) : List ℚ :=
  price_change_pct.map (fun r => base_price * (1 + r))

/-- Line 272: constant-elasticity demand at a single price,
`base_demand * (price / base_price) ** elasticity`; the elasticity is an
arbitrary real, so the power is the real power function. -/
noncomputable def sim_demand (base_price base_demand elasticity : ℝ)
    (price : ℝ) : ℝ :=
  base_demand * (price / base_price) ^ elasticity

/-- Line 274: `sim_profit = (sim_prices - base_cost) * sim_demand`, at a
single price. -/
noncomputable def sim_profit (base_price base_cost base_demand elasticity : ℝ)
    (price : ℝ) : ℝ :=
  (price - base_cost) * sim_demand base_price base_demand elasticity price

/-- The ambient state of numpy's global PRNG, modelled as a natural
number seed value. -/
abbrev RngState := Nat

/-- Modelled from the spec: numpy's global PRNG step (the library code is
external to this repository).  Any deterministic state-transition
function is faithful to the determinism contract; a linear congruential
step is used. -/
def rngNext (s : RngState) : RngState :=
  (1103515245 * s + 12345) % 2 ^ 31

/-- Modelled from the spec: `np.random.seed(seed)` resets the global PRNG
state to a value determined by the seed alone, discarding the ambient
state. -/
def np_seed (seed : Nat) : RngState := seed % 2 ^ 31

/-- Modelled from the spec: a single normal draw
`center + spread * unit`, where the unit deviate is a deterministic
function of the PRNG state; returns the sample and the advanced state. -/
def normalDraw (center spread : ℚ) (s : RngState) : ℚ × RngState :=
  let s2 := rngNext s
  (center + spread * (((s2 % 2001 : Nat) : ℚ) - 1000) / 1000, s2)

/-- Modelled from the spec: `np.random.normal(center, spread, n)` draws n
samples in sequence, threading the PRNG state. -/
def normalDraws (center spread : ℚ) (n : Nat) (s : RngState) :
    List ℚ × RngState :=
  match n with
  | 0 => ([], s)
  | Nat.succ k =>
    let p := normalDraw center spread s
    let rest := normalDraws center spread k p.2
    (p.1 :: rest.1, rest.2)

/-- `load_geo_data` (lines 319-324): seed the global PRNG from the seed
argument, draw n latitudes around lat0 and n longitudes around lon0 with
spread 0.02, and pair them.  The ambient PRNG state g is an explicit
argument; the function discards it by seeding first. -/
def load_geo_data (g : RngState) (lat0 lon0 : ℚ) (n : Nat) (seed : Nat) :
    List (ℚ × ℚ) :=
  let _ := g
  let s0 := np_seed seed
  let lat := normalDraws lat0 (2/100) n s0
  let lon := normalDraws lon0 (2/100) n lat.2
  lat.1.zip lon.1

end RetailDashboard

namespace RetailDashboard

/-- The overstock units over a forecast list are pointwise
`max (f * buffer_pct / 100) 0`. -/
lemma overstock_units_eq_map (b : ℚ) (forecast : List ℚ) :
    overstock_units b forecast
      = forecast.map (fun f => max (f * (b / 100)) 0) := by
  unfold overstock_units Order_Qty
  rw [List.zipWith_map_left, List.zipWith_same]
  refine List.map_congr_left (fun f _ => ?_)
  ring_nf

/-- The understock units over a forecast list are pointwise
`max (f * (-buffer_pct) / 100) 0`. -/
lemma understock_units_eq_map (b : ℚ) (forecast : List ℚ) :
    understock_units b forecast
      = forecast.map (fun f => max (f * (-b / 100)) 0) := by
  unfold understock_units Order_Qty
  rw [List.zipWith_map_right, List.zipWith_same]
  refine List.map_congr_left (fun f _ => ?_)
  ring_nf

/-- C1: segmentation is total and exclusive over {VIP, At Risk, Standard}:
the result is "VIP" exactly when the VIP conditions hold, "At Risk" exactly
when the VIP conditions fail and the risk conditions hold, "Standard"
exactly when both fail; exactly one label is assigned, and a customer
meeting both the VIP and the At-Risk conditions is classified "VIP". -/
theorem segment_total_exclusive (t : Thresholds) (row : Customer) :
    (segment t row = "VIP" ↔
      (row.monetary ≥ t.vip_m_threshold ∧ row.frequency ≥ t.vip_f_threshold))
    ∧ (segment t row = "At Risk" ↔
      (¬(row.monetary ≥ t.vip_m_threshold ∧ row.frequency ≥ t.vip_f_threshold)
        ∧ row.recency ≥ t.risk_recency ∧ row.monetary ≥ t.risk_value_floor))
    ∧ (segment t row = "Standard" ↔
      (¬(row.monetary ≥ t.vip_m_threshold ∧ row.frequency ≥ t.vip_f_threshold)
        ∧ ¬(row.recency ≥ t.risk_recency ∧ row.monetary ≥ t.risk_value_floor)))
    ∧ ((segment t row = "VIP" ∧ segment t row ≠ "At Risk" ∧ segment t row ≠ "Standard")
        ∨ (segment t row ≠ "VIP" ∧ segment t row = "At Risk" ∧ segment t row ≠ "Standard")
        ∨ (segment t row ≠ "VIP" ∧ segment t row ≠ "At Risk" ∧ segment t row = "Standard"))
    ∧ ((row.monetary ≥ t.vip_m_threshold ∧ row.frequency ≥ t.vip_f_threshold)
        → (row.recency ≥ t.risk_recency ∧ row.monetary ≥ t.risk_value_floor)
        → segment t row = "VIP") := by
  unfold segment
  by_cases hv : row.monetary ≥ t.vip_m_threshold ∧ row.frequency ≥ t.vip_f_threshold
  · simp [hv]
  · by_cases hr : row.recency ≥ t.risk_recency ∧ row.monetary ≥ t.risk_value_floor
    · simp [hv, hr]
    · simp [hv, hr]

/-- Witness for C1: a concrete customer meeting both the VIP and the
At-Risk conditions is classified "VIP" by `segment_total_exclusive`. -/
theorem segment_total_exclusive_witness :
    segment ⟨3000, 10, 60, 800⟩ ⟨1, 70, 12, 3500⟩ = "VIP" :=
  (segment_total_exclusive ⟨3000, 10, 60, 800⟩ ⟨1, 70, 12, 3500⟩).2.2.2.2
    (by norm_num) (by norm_num)

/-- C5: the replenishment computation realises the spec formulas exactly:
every entry of Order_Qty is the forecast entry scaled by (1 + buffer/100),
overstock_cost is the sum over the forecast of
max(Order_Qty − Forecast, 0) × unit_cost × (rate/100), stockout_cost is
the sum of max(Forecast − Order_Qty, 0) × lost_margin, and the total risk
cost is their sum. -/
theorem replenishment_formulas (b c r m : ℚ) (forecast : List ℚ) :
    (∀ i : Nat, (Order_Qty b forecast)[i]?
        = (forecast[i]?).map (fun f => f * (1 + b / 100)))
    ∧ overstock_cost b c r forecast
        = (forecast.map
            (fun f => max (f * (1 + b / 100) - f) 0 * c * (r / 100))).sum
    ∧ stockout_cost b m forecast
        = (forecast.map (fun f => max (f - f * (1 + b / 100)) 0 * m)).sum
    ∧ total_cost b c r m forecast
        = overstock_cost b c r forecast + stockout_cost b m forecast := by
  refine ⟨fun i => ?_, ?_, ?_, rfl⟩
  · simp [Order_Qty]
  · rw [overstock_cost, overstock_units_eq_map, List.map_map]
    refine congrArg List.sum (List.map_congr_left (fun f _ => ?_))
    have hmax : f * (1 + b / 100) - f = f * (b / 100) := by ring
    simp [Function.comp, hmax]
  · rw [stockout_cost, understock_units_eq_map, List.map_map]
    refine congrArg List.sum (List.map_congr_left (fun f _ => ?_))
    have hmax : f - f * (1 + b / 100) = f * (-b / 100) := by ring
    simp [Function.comp, hmax]

/-- C4: for a fixed forecast with non-negative entries and non-negative
cost parameters, overstock_cost is non-decreasing and stockout_cost is
non-increasing in buffer_pct. -/
theorem risk_costs_monotone (c r m b1 b2 : ℚ) (forecast : List ℚ)
    (hf : ∀ f ∈ forecast, 0 ≤ f) (hc : 0 ≤ c) (hr : 0 ≤ r) (hm : 0 ≤ m)
    (hb : b1 ≤ b2) :
    overstock_cost b1 c r forecast ≤ overstock_cost b2 c r forecast
    ∧ stockout_cost b2 m forecast ≤ stockout_cost b1 m forecast := by
  constructor
  · rw [overstock_cost, overstock_cost, overstock_units_eq_map,
      overstock_units_eq_map, List.map_map, List.map_map]
    refine List.sum_le_sum (fun f hf0 => ?_)
    have h0 : (0 : ℚ) ≤ f := hf f hf0
    simp only [Function.comp]
    gcongr
  · rw [stockout_cost, stockout_cost, understock_units_eq_map,
      understock_units_eq_map, List.map_map, List.map_map]
    refine List.sum_le_sum (fun f hf0 => ?_)
    have h0 : (0 : ℚ) ≤ f := hf f hf0
    have hb2 : -b2 / 100 ≤ -b1 / 100 := by linarith
    simp only [Function.comp]
    gcongr

/-- Witness for C4: monotonicity evaluated on the concrete forecast
[100, 120] with buffers −10 and 10 and the default cost parameters. -/
theorem risk_costs_monotone_witness :
    overstock_cost (-10) (1/2) 60 [100, 120]
        ≤ overstock_cost 10 (1/2) 60 [100, 120]
    ∧ stockout_cost 10 (4/5) [100, 120]
        ≤ stockout_cost (-10) (4/5) [100, 120] :=
  risk_costs_monotone (1/2) 60 (4/5) (-10) 10 [100, 120]
    (by intro f hf0; simp at hf0; rcases hf0 with h | h <;> norm_num [h])
    (by norm_num) (by norm_num) (by norm_num) (by norm_num)

/-- C10: with a non-negative forecast, a non-negative buffer forces
stockout_cost to 0, a non-positive buffer forces overstock_cost to 0, and
for any buffer at least one of the two risk costs is exactly 0. -/
theorem risk_costs_never_both (b c r m : ℚ) (forecast : List ℚ)
    (hf : ∀ f ∈ forecast, 0 ≤ f) :
    (0 ≤ b → stockout_cost b m forecast = 0)
    ∧ (b ≤ 0 → overstock_cost b c r forecast = 0)
    ∧ (stockout_cost b m forecast = 0 ∨ overstock_cost b c r forecast = 0) := by
  have hstock : 0 ≤ b → stockout_cost b m forecast = 0 := by
    intro hb
    rw [stockout_cost, understock_units_eq_map, List.map_map]
    refine List.sum_eq_zero (fun x hx => ?_)
    rcases List.mem_map.mp hx with ⟨f, hf0, rfl⟩
    have h0 : (0 : ℚ) ≤ f := hf f hf0
    have hneg : f * (-b / 100) ≤ 0 :=
      mul_nonpos_of_nonneg_of_nonpos h0 (by linarith)
    simp [Function.comp, max_eq_right hneg]
  have hover : b ≤ 0 → overstock_cost b c r forecast = 0 := by
    intro hb
    rw [overstock_cost, overstock_units_eq_map, List.map_map]
    refine List.sum_eq_zero (fun x hx => ?_)
    rcases List.mem_map.mp hx with ⟨f, hf0, rfl⟩
    have h0 : (0 : ℚ) ≤ f := hf f hf0
    have hneg : f * (b / 100) ≤ 0 :=
      mul_nonpos_of_nonneg_of_nonpos h0 (by linarith)
    simp [Function.comp, max_eq_right hneg]
  refine ⟨hstock, hover, ?_⟩
  rcases le_total 0 b with hb | hb
  · exact Or.inl (hstock hb)
  · exact Or.inr (hover hb)

/-- C2 counterexample: with the risk-value floor at 6000 no customer of a
concrete population is At Risk, and the mean-Frequency aggregate is the
undefined NaN value (`none`), not a defined numeric fallback sentinel. -/
theorem atRiskMean_empty_counterexample :
    risk_users ⟨3000, 10, 60, 6000⟩
        [⟨1, 10, 12, 3500⟩, ⟨2, 70, 2, 900⟩, ⟨3, 5, 1, 500⟩] = []
    ∧ atRiskMeanFrequency ⟨3000, 10, 60, 6000⟩
        [⟨1, 10, 12, 3500⟩, ⟨2, 70, 2, 900⟩, ⟨3, 5, 1, 500⟩] = none := by
  constructor <;> rfl

/-- C2 amended: whenever the At-Risk subset is empty, the mean-Frequency
aggregate propagates the undefined NaN value (`none`); no numeric
sentinel is substituted and no error is raised. -/
theorem atRiskMean_empty_none (t : Thresholds) (df : List Customer)
    (h : risk_users t df = []) :
    atRiskMeanFrequency t df = none := by
  simp [atRiskMeanFrequency, h]

/-- Witness for the amended C2: a concrete single-customer population with
no At-Risk member yields `none`. -/
theorem atRiskMean_empty_none_witness :
    atRiskMeanFrequency ⟨3000, 10, 60, 6000⟩ [⟨3, 5, 1, 500⟩] = none :=
  atRiskMean_empty_none ⟨3000, 10, 60, 6000⟩ [⟨3, 5, 1, 500⟩] (by rfl)

/-- C6: the strategy decision is a pure two-branch function: the label is
"Loss Leader" exactly when driver_margin < target_margin, "Bundle"
exactly otherwise, and no third label is possible. -/
theorem strategy_two_branch (rule : Rule) :
    (strategy rule = "Loss Leader" ↔ rule.driver_margin < rule.target_margin)
    ∧ (strategy rule = "Bundle" ↔ ¬ rule.driver_margin < rule.target_margin)
    ∧ (strategy rule = "Loss Leader" ∨ strategy rule = "Bundle") := by
  unfold strategy
  by_cases h : rule.driver_margin < rule.target_margin
  · simp [h]
  · simp [h]

/-- C7: for every rule reachable through the basket lookup, the displayed
total margin is exactly driver_margin + target_margin. -/
theorem total_margin_eq (key : String) (rule : Rule)
    (_h : lookupRule key = Except.ok rule) :
    total_margin rule = rule.driver_margin + rule.target_margin := rfl

/-- Witness for C7: the Milk rule is reachable and its total margin is
0.05 + 0.35. -/
theorem total_margin_eq_witness :
    lookupRule "Milk 🥛"
        = Except.ok ⟨"Bread 🍞", 12/100, 41/100, 18/10, 5/100, 35/100, "每日早餐剛需"⟩
    ∧ total_margin ⟨"Bread 🍞", 12/100, 41/100, 18/10, 5/100, 35/100, "每日早餐剛需"⟩
        = 5/100 + 35/100 :=
  ⟨by rfl, total_margin_eq "Milk 🥛" _ (by rfl)⟩

/-- C8: the basket lookup succeeds exactly on the keys of the fixed rules
table — returning a record actually paired with that key — and fails with
the KeyError (LookupError) on every other key; no other outcome exists. -/
theorem lookup_iff_mem (key : String) :
    ((∃ rule, lookupRule key = Except.ok rule) ↔ key ∈ rules_db.map Prod.fst)
    ∧ (lookupRule key = Except.error "KeyError" ↔ key ∉ rules_db.map Prod.fst)
    ∧ (∀ rule, lookupRule key = Except.ok rule → (key, rule) ∈ rules_db) := by
  cases h : rules_db.find? (fun p => p.1 = key) with
  | none =>
    have hnmem : key ∉ rules_db.map Prod.fst := by
      intro hk
      rcases List.mem_map.mp hk with ⟨p, hp, hpk⟩
      have := List.find?_eq_none.mp h p hp
      simp [hpk] at this
    refine ⟨?_, ?_, ?_⟩
    · simp [lookupRule, h, hnmem]
    · simp [lookupRule, h, hnmem]
    · intro rule hr
      simp [lookupRule, h] at hr
  | some p =>
    obtain ⟨k, rule0⟩ := p
    have hp1 : k = key := by
      have := List.find?_some h
      simpa using this
    have hpmem : (k, rule0) ∈ rules_db := List.mem_of_find?_eq_some h
    have hmem : key ∈ rules_db.map Prod.fst :=
      List.mem_map.mpr ⟨(k, rule0), hpmem, hp1⟩
    refine ⟨?_, ?_, ?_⟩
    · simp [lookupRule, h, hmem]
    · simp [lookupRule, h, hmem]
    · intro rule hr
      simp [lookupRule, h] at hr
      rw [← hr, ← hp1]
      exact hpmem

/-- Witness for C8: the Beer key succeeds with its table record and a key
outside the table fails with the KeyError. -/
theorem lookup_iff_mem_witness :
    ("Beer 🍺",
        (⟨"Chips 🥔", 8/100, 62/100, 5, 10/100, 70/100, "週末狂歡組合"⟩ : Rule))
      ∈ rules_db
    ∧ lookupRule "Coffee" = Except.error "KeyError" :=
  ⟨(lookup_iff_mem "Beer 🍺").2.2 _ (by rfl),
   (lookup_iff_mem "Coffee").2.1.mpr (by decide)⟩

/-- The relative change 0 is not among the 60 linspace samples: it would
require an index i with 2 i = 59. -/
lemma zero_not_mem_price_change_pct : (0 : ℚ) ∉ price_change_pct := by
  intro hmem
  unfold price_change_pct linspace at hmem
  rcases List.mem_map.mp hmem with ⟨i, hi, heq⟩
  have h2 : (i : ℚ) * 2 = 59 := by
    field_simp at heq
    linarith
  have h3 : ((i * 2 : ℕ) : ℚ) = ((59 : ℕ) : ℚ) := by push_cast; linarith
  have h4 : i * 2 = 59 := Nat.cast_injective h3
  omega

/-- C3 counterexample: the relative change r = 0 is not among the 60
sampled points of linspace(−0.2, 0.2, 60), so the base price P0 = 10 is
not among the simulated prices. -/
theorem r_zero_not_sampled :
    (0 : ℚ) ∉ price_change_pct ∧ (10 : ℚ) ∉ sim_prices 10 := by
  refine ⟨zero_not_mem_price_change_pct, ?_⟩
  intro hmem
  rcases List.mem_map.mp hmem with ⟨r, hr, heq⟩
  have hr0 : r = 0 := by linarith
  rw [hr0] at hr
  exact zero_not_mem_price_change_pct hr

/-- C3 amended: r = 0 is not one of the 60 sampled relative changes, but
the demand and profit formulas of the simulation, evaluated at the base
price P0 = 10 with C = 6 and Q0 = 100, give exactly Demand = 100 and
Profit = 400 for every elasticity. -/
theorem pricing_at_base_price (e : ℝ) :
    (0 : ℚ) ∉ price_change_pct
    ∧ sim_demand 10 100 e 10 = 100
    ∧ sim_profit 10 6 100 e 10 = 400 := by
  refine ⟨zero_not_mem_price_change_pct, ?_, ?_⟩
  · unfold sim_demand
    norm_num
  · unfold sim_profit sim_demand
    norm_num

/-- Drawing n normal samples yields a list of length n. -/
lemma normalDraws_length (center spread : ℚ) (n : Nat) (s : RngState) :
    (normalDraws center spread n s).1.length = n := by
  induction n generalizing s with
  | zero => rfl
  | succ k ih => simp [normalDraws, ih]

/-- C9: the geo generator is insensitive to the ambient PRNG state — two
invocations with identical (center, n, seed) yield identical point lists —
and always returns exactly n (lat, lon) pairs. -/
theorem load_geo_data_deterministic (g1 g2 : RngState) (lat0 lon0 : ℚ)
    (n : Nat) (seed : Nat) (_h : 0 < n) :
    load_geo_data g1 lat0 lon0 n seed = load_geo_data g2 lat0 lon0 n seed
    ∧ (load_geo_data g1 lat0 lon0 n seed).length = n := by
  constructor
  · rfl
  · simp [load_geo_data, normalDraws_length]

/-- Witness for C9: with the Brussels default center, n = 500 and the
default seed 11, two invocations from different ambient states agree and
produce exactly 500 points. -/
theorem load_geo_data_deterministic_witness :
    0 < 500
    ∧ load_geo_data 0 (508503/10000) (43517/10000) 500 11
        = load_geo_data 12345 (508503/10000) (43517/10000) 500 11
    ∧ (load_geo_data 0 (508503/10000) (43517/10000) 500 11).length = 500 :=
  ⟨by decide,
   (load_geo_data_deterministic 0 12345 (508503/10000) (43517/10000) 500 11
      (by decide)).1,
   (load_geo_data_deterministic 0 12345 (508503/10000) (43517/10000) 500 11
      (by decide)).2⟩

/-- Witness for C10: on the forecast [100, 120] with buffer 10 the
stockout cost vanishes and at least one cost component is zero. -/
theorem risk_costs_never_both_witness :
    stockout_cost 10 (4/5) [100, 120] = 0
    ∧ (stockout_cost 10 (4/5) [100, 120] = 0
        ∨ overstock_cost 10 (1/2) 60 [100, 120] = 0) :=
  ⟨(risk_costs_never_both 10 (1/2) 60 (4/5) [100, 120]
      (by intro f hf0; simp at hf0; rcases hf0 with h | h <;> norm_num [h])).1
    (by norm_num),
  (risk_costs_never_both 10 (1/2) 60 (4/5) [100, 120]
      (by intro f hf0; simp at hf0; rcases hf0 with h | h <;> norm_num [h])).2.2⟩

end RetailDashboard
